import Mathlib

/-
Verification development for the adflow pipeline orchestrator.

Shallow embedding of the Python sources:
  * models/artifact.py, models/project.py  (enums and records)
  * routes/artifacts.py                    (in-memory artifact store)
  * routes/projects.py                     (submit_answers route)
  * core/orchestrator.py                   (event emitter, revision loop,
                                            pipeline state machine, resume flow,
                                            post-completion refinement operations)

Modelling conventions:
  * Python exceptions are modelled with `PyResult` (`raised` / `returned`).
  * External calls (LLM-backed agent executions, the web parser) are modelled
    as outcome scripts passed in as parameters: `agent.execute` either returns
    success with a constructed output object (see agents/pm.py lines 27-41:
    every success response carries the structured object built by
    `complete_structured`) or failure with an error message.
  * Pydantic objects are mutable Python objects held by reference in the
    in-memory stores; mutating a fetched artifact mutates the stored entry.
    The store is a `List Artifact`; in-place mutation of the entry at index
    `i` is `List.set i`, appending (`save_artifact`) is `++ [a]`.
  * `artifacts_db` is a dict project-id -> insertion-ordered list; we flatten
    it to a single insertion-ordered list, since every read filters by
    project id and type, which preserves the per-project order.
  * Event emission appends to an observable event trace; assignments to
    `project.status` are additionally recorded in an instrumentation trace
    `OrchState.trace` so that temporal claims about the status sequence can
    be stated.
-/

namespace AdFlow

/-- models/artifact.py `ArtifactType`. -/
inductive ArtifactType
  | brief
  | questions
  | strategy
  | hypotheses
  | copy
  | banners
  | final_package
  deriving DecidableEq, Repr

/-- models/artifact.py `ArtifactStatus`. -/
inductive ArtifactStatus
  | pending
  | in_progress
  | review
  | revision
  | approved
  | user_edited
  deriving DecidableEq, Repr

/-- models/project.py `ProjectStatus`. -/
inductive ProjectStatus
  | created
  | analyzing
  | questions
  | strategy
  | hypotheses
  | copywriting
  | design
  | review
  | completed
  | failed
  deriving DecidableEq, Repr

/-- models/project.py `ProjectBrief`. -/
structure ProjectBrief where
  business_name : String := ""
  business_description : String := ""
  products_services : List String := []
  unique_selling_points : List String := []
  target_url : String := ""
  detected_niche : String := ""
  detected_language : String := "ru"
  deriving DecidableEq, Repr

/-- models/artifact.py `Question`. -/
structure Question where
  id : String
  question : String
  question_type : String := "text"
  options : Option (List String) := none
  required : Bool := true
  answer : Option String := none
  category : String := "general"
  hint : Option String := none
  deriving DecidableEq, Repr

/-- models/artifact.py `ClientInterview` (field defaults as in the source). -/
structure ClientInterview where
  budget_monthly : Option Int := none
  budget_type : String := "flexible"
  test_budget : Option Int := none
  primary_goal : String := "leads"
  secondary_goals : List String := []
  target_cpa : Option Int := none
  target_monthly_leads : Option Int := none
  target_audience_description : String := ""
  geo : List String := ["Россия"]
  age_range : String := ""
  gender : String := "all"
  preferred_platforms : List String := []
  excluded_platforms : List String := []
  has_telegram_channel : Bool := false
  telegram_channel_url : Option String := none
  restrictions : List String := []
  competitor_urls : List String := []
  previous_experience : String := "none"
  what_worked_before : String := ""
  what_failed_before : String := ""
  deriving DecidableEq, Repr

/-- Content of a `questions` artifact (models/artifact.py `QuestionsArtifact`
dumped to a dict: keys `questions`, `all_answered`, `interview`). -/
structure QuestionsContent where
  questions : List Question := []
  all_answered : Bool := false
  interview : Option ClientInterview := none
  deriving DecidableEq, Repr

/-- Artifact `content` values observed by the orchestrator.  `content` is
`Any` in Python; the orchestrator only ever inspects the `brief` dump, the
`questions` dump and the `creatives` key of a copy dump; every other dump is
kept opaque as `rawC`. -/
inductive ArtifactContent
  | briefC (b : ProjectBrief)
  | questionsC (q : QuestionsContent)
  | creativesC (creatives : List String)
  | rawC (s : String)
  deriving DecidableEq, Repr

/-- models/artifact.py `Artifact` (timestamps omitted: no claim mentions
them and no control flow reads them). -/
structure Artifact where
  id : String
  project_id : String
  type : ArtifactType
  status : ArtifactStatus := ArtifactStatus.pending
  version : Nat := 1
  content : Option ArtifactContent := none
  agent_name : String
  review_notes : Option String := none
  user_feedback : Option String := none
  deriving DecidableEq, Repr

/-- models/project.py `ProjectSettings` (fields used by the orchestrator). -/
structure ProjectSettings where
  budget_monthly : Option Int := none
  goals : List String := []
  target_audience_description : String := ""
  excluded_platforms : List String := []
  brand_guidelines : Option String := none
  competitors : List String := []
  additional_notes : String := ""
  deriving DecidableEq, Repr

/-- models/project.py `Project` (timestamps omitted). -/
structure Project where
  id : String
  user_id : String
  name : String
  url : String
  status : ProjectStatus := ProjectStatus.created
  brief : Option ProjectBrief := none
  settings : Option ProjectSettings := none
  current_stage : Nat := 0
  error_message : Option String := none
  deriving DecidableEq, Repr

/-- agents/pm.py `AnalysisResult`. -/
structure AnalysisResult where
  brief : ProjectBrief
  questions : List Question
  initial_observations : String := ""
  deriving DecidableEq, Repr

/-- agents/base.py `ReviewResult`.  `score` is a Python int validated by
pydantic to lie in `[0, 10]`; we keep it as `Int` and never rely on the
bounds. -/
structure ReviewResult where
  approved : Bool
  score : Int := 0
  feedback : String := ""
  revision_instructions : Option String := none
  critical_issues : List String := []
  deriving DecidableEq, Repr

/-- Outcome of one external `agent.execute` call (agents/base.py
`AgentResponse`): `ok` iff `success` is true, carrying the constructed
output object; `err` carries `error_message`. -/
inductive AgentOutcome (α : Type)
  | err (msg : String)
  | ok (out : α)
  deriving DecidableEq, Repr

/-- Outcome of one external review call by the PM agent: on success the
output is a `ReviewResult` (agents/pm.py `review_work`). -/
inductive ReviewOutcome
  | err (msg : String)
  | ok (r : ReviewResult)
  deriving DecidableEq, Repr

/-- Python control-flow result: a normal return or a propagating exception. -/
inductive PyResult (α : Type)
  | raised (msg : String)
  | returned (out : α)
  deriving DecidableEq, Repr

/-- Events passed to `_emit_event` in core/orchestrator.py, with the payload
fields the claims mention. -/
inductive Event
  | stage_start (stage : Nat) (name : String)
  | questions_ready (project_id : String)
  | artifact_approved (atype : ArtifactType) (score : Int)
  | artifact_revision (atype : ArtifactType) (revision : Nat) (feedback : String)
  | pipeline_complete (project_id : String)
  | pipeline_error (msg : String)
  deriving DecidableEq, Repr

/-- Entry of `Orchestrator.waiting_projects` (core/orchestrator.py lines
78-81): the analysis result and the stage marker string. -/
structure WaitingEntry where
  analysis : AnalysisResult
  stage : String
  deriving DecidableEq, Repr

/-- Observable orchestrator-side state threaded through the embedding:
the artifact store, the emitted event trace, the `waiting_projects` map
(assoc list keyed by project id) and the instrumentation trace of all
assignments to `project.status`. -/
structure OrchState where
  store : List Artifact := []
  events : List Event := []
  waiting : List (String × WaitingEntry) := []
  trace : List ProjectStatus := []
  deriving DecidableEq, Repr

/-- routes/artifacts.py `save_artifact`: append to the project's list. -/
def save_artifact (a : Artifact) (store : List Artifact) : List Artifact :=
  store ++ [a]

/-- Index and value of the artifact `get_latest_artifact` returns: among the
artifacts matching `(project_id, type)`, the first one of maximal version
(CPython `max(matching, key=...)` keeps the earliest maximal element). -/
def latestWithIdx (pid : String) (t : ArtifactType) (store : List Artifact) :
    Option (Nat × Artifact) :=
  match store.enum.filter (fun p => p.2.project_id == pid && p.2.type == t) with
  | [] => none
  | m :: ms => some (ms.foldl (fun acc b => if b.2.version > acc.2.version then b else acc) m)

/-- routes/artifacts.py `get_latest_artifact`. -/
def get_latest_artifact (pid : String) (t : ArtifactType) (store : List Artifact) :
    Option Artifact :=
  (latestWithIdx pid t store).map (fun p => p.2)

/-- In-place mutation of the most recently appended artifact (the Python
code mutates, after `save_artifact`, the very object it just appended). -/
def updateLast (f : Artifact → Artifact) : List Artifact → List Artifact
  | [] => []
  | [a] => [f a]
  | a :: b :: rest => a :: updateLast f (b :: rest)

/-- Record the event emitted by `Orchestrator._emit_event` on the
observable trace (observer delivery itself is modelled by `emit_event`
below). -/
def emit (s : OrchState) (e : Event) : OrchState :=
  { s with events := s.events ++ [e] }

/-- Assignment `project.status = st`, recorded on the instrumentation
trace. -/
def setStatus (p : Project) (st : ProjectStatus) (s : OrchState) :
    Project × OrchState :=
  ({ p with status := st }, { s with trace := s.trace ++ [st] })

/-- core/orchestrator.py `self.max_revisions` (line 39). -/
def max_revisions : Nat := 3

/-- The artifact saved for one creation attempt in `_create_with_review`
(lines 440-449): status `review`, version `revisions + 1`, content the
dumped output. -/
def mkAttemptArtifact {α : Type} (dump : α → ArtifactContent) (agentName : String)
    (atype : ArtifactType) (pid : String) (ids : Nat → String)
    (revisions : Nat) (out : α) : Artifact :=
  { id := ids revisions
    project_id := pid
    type := atype
    status := ArtifactStatus.review
    version := revisions + 1
    content := some (dump out)
    agent_name := agentName }

/-- Instrumented result of a `_create_with_review` run: the Python result,
the final state, and how many creation calls (`agent.execute`) and review
calls (`self.pm.execute`) were performed. -/
structure LoopRun (α : Type) where
  result : PyResult α
  state : OrchState
  attempts : Nat
  reviewCalls : Nat
  deriving Repr

/-- Value of `return output` after the loop of `_create_with_review`
(line 506): the last bound value of the Python local `output`, or an
`UnboundLocalError` when no loop iteration ever bound it. -/
def loopExitResult {α : Type} : Option α → PyResult α
  | some out => PyResult.returned out
  | none => PyResult.raised "UnboundLocalError: output"

/-- Body of the `while revisions < self.max_revisions` loop of
`_create_with_review` (core/orchestrator.py lines 429-506).  `fuel` is
`max_revisions - revisions` (the loop increments `revisions` by exactly one
per iteration), `gen k` / `rev k` are the external outcomes of the creation
and review calls of attempt `k`, `ids k` the uuid drawn for attempt `k`,
and `last` the value of the Python local `output` before the iteration
(`none` = still unbound). -/
def createWithReviewGo {α : Type} (dump : α → ArtifactContent) (agentName : String)
    (atype : ArtifactType) (pid : String)
    (gen : Nat → AgentOutcome α) (rev : Nat → ReviewOutcome) (ids : Nat → String) :
    Nat → Nat → Option α → OrchState → Nat → Nat → LoopRun α
  | _, 0, last, s, att, rc =>
    -- loop condition false: `return output` after the loop (line 506)
    ⟨loopExitResult last, s, att, rc⟩
  | revisions, fuel + 1, _, s, att, rc =>
    match gen revisions with
    | AgentOutcome.err m =>
      -- line 435: raise Exception(f"Agent {agent.name} failed: ...")
      ⟨PyResult.raised ("Agent " ++ agentName ++ " failed: " ++ m), s, att + 1, rc⟩
    | AgentOutcome.ok out =>
      -- lines 440-449: save artifact with status `review`
      let s1 : OrchState :=
        { s with store := save_artifact (mkAttemptArtifact dump agentName atype pid ids revisions out) s.store }
      match rev revisions with
      | ReviewOutcome.err _ =>
        -- lines 463-466: review call failed -> mutate saved artifact to
        -- `approved`, accept the work
        ⟨PyResult.returned out,
         { s1 with store := updateLast (fun a => { a with status := ArtifactStatus.approved }) s1.store },
         att + 1, rc + 1⟩
      | ReviewOutcome.ok r =>
        if r.approved ∨ 8 ≤ r.score then
          -- lines 470-477: approved
          let s2 : OrchState :=
            { s1 with store := updateLast (fun a => { a with status := ArtifactStatus.approved }) s1.store }
          ⟨PyResult.returned out,
           emit s2 (Event.artifact_approved atype r.score),
           att + 1, rc + 1⟩
        else
          -- lines 479-503: revision; the rebuilt REVISE task only changes
          -- what the external agent sees, which the `gen` script models
          let s2 : OrchState :=
            { s1 with store :=
                updateLast (fun a =>
                  { a with status := ArtifactStatus.revision,
                           review_notes := some r.feedback }) s1.store }
          let s3 := emit s2 (Event.artifact_revision atype (revisions + 1) r.feedback)
          createWithReviewGo dump agentName atype pid gen rev ids
            (revisions + 1) fuel (some out) s3 (att + 1) (rc + 1)

/-- core/orchestrator.py `Orchestrator._create_with_review`. -/
def create_with_review {α : Type} (dump : α → ArtifactContent) (agentName : String)
    (atype : ArtifactType) (pid : String)
    (gen : Nat → AgentOutcome α) (rev : Nat → ReviewOutcome) (ids : Nat → String)
    (maxRevisions : Nat) (s : OrchState) : LoopRun α :=
  createWithReviewGo dump agentName atype pid gen rev ids 0 maxRevisions none s 0 0

/-! ### Event emitter observer delivery (core/orchestrator.py lines 45-55) -/

/-- Observable behaviour of one registered callback on one event: it either
returns normally or raises. -/
inductive CbOutcome
  | ok
  | raises (msg : String)
  deriving DecidableEq, Repr

/-- A registered observer, represented by its behaviour on each event. -/
def Callback : Type := Event → CbOutcome

/-- `try: cb(event_type, data) except Exception: pass` — both a normal
return and a raise fall through to the next loop iteration. -/
def tryExceptPass (r : CbOutcome) : PyResult Unit :=
  match r with
  | CbOutcome.ok => PyResult.returned ()
  | CbOutcome.raises _ => PyResult.returned ()

/-- `Orchestrator._emit_event`: iterate over `self.event_callbacks` in
registration order, invoking each callback inside a try/except.  Returns
the recorded outcome of every invocation (in invocation order), or the
exception would propagate out of the `for` loop. -/
def emit_event : List Callback → Event → PyResult (List CbOutcome)
  | [], _ => PyResult.returned []
  | cb :: rest, e =>
    let r := cb e
    match tryExceptPass r with
    | PyResult.raised m => PyResult.raised m
    | PyResult.returned _ =>
      match emit_event rest e with
      | PyResult.raised m => PyResult.raised m
      | PyResult.returned rs => PyResult.returned (r :: rs)

/-! ### Pipeline state machine (core/orchestrator.py lines 57-245) -/

/-- models/strategy.py `PlatformStrategy`, restricted to the two fields the
orchestrator reads (`platform.value` kept as its string value). -/
structure PlatformStrategy where
  platform : String
  enabled : Bool := true
  deriving DecidableEq, Repr

/-- models/strategy.py `Strategy`, restricted to the field the orchestrator
reads plus an opaque rest. -/
structure Strategy where
  platforms : List PlatformStrategy := []
  rest : String := ""
  deriving DecidableEq, Repr

/-- models/creative.py `CreativeSet` restricted to what the orchestrator
reads: the dumped dict's `creatives` list, kept opaque element-wise. -/
structure CreativeSet where
  creatives : List String := []
  deriving DecidableEq, Repr

/-- agents/designer.py `BannerSet` restricted to what the orchestrator
constructs (`BannerSet(banners=[], total_count=0)`). -/
structure BannerSet where
  banners : List String := []
  total_count : Nat := 0
  deriving DecidableEq, Repr

def dumpPlatform (pc : PlatformStrategy) : String :=
  pc.platform ++ (if pc.enabled then ":on" else ":off")

def dumpStrategy (st : Strategy) : ArtifactContent :=
  ArtifactContent.rawC (String.intercalate "," (st.platforms.map dumpPlatform) ++ ";" ++ st.rest)

def dumpHypotheses (h : String) : ArtifactContent :=
  ArtifactContent.rawC h

def dumpCreatives (c : CreativeSet) : ArtifactContent :=
  ArtifactContent.creativesC c.creatives

def dumpBanners (b : BannerSet) : ArtifactContent :=
  ArtifactContent.rawC (String.intercalate "," b.banners ++ ";" ++ toString b.total_count)

/-- External outcomes of one `_create_with_review` call: the creation
outcomes, the review outcomes, and the uuid draws, all indexed by attempt
number. -/
structure StageScript (α : Type) where
  gen : Nat → AgentOutcome α
  rev : Nat → ReviewOutcome
  ids : Nat → String

/-- All external outcomes one `run_pipeline` / `_continue_pipeline` run can
consume: the parser call, the PM analysis call, the uuids of the analyze
artifacts, and the four stage scripts (hypotheses content kept opaque as a
string). -/
structure PipelineExt where
  parse : AgentOutcome String
  analyze : AgentOutcome AnalysisResult
  briefId : String
  questionsId : String
  strategyScript : StageScript Strategy
  hypothesesScript : StageScript String
  copyScript : StageScript CreativeSet
  designScript : StageScript BannerSet

/-- `Orchestrator._stage_analyze` (lines 247-287): parse, analyze, save the
brief artifact (status `approved`), save the questions artifact (status
`pending`) when questions exist. -/
def stage_analyze (p : Project) (ext : PipelineExt) (s : OrchState) :
    PyResult AnalysisResult × OrchState :=
  match ext.parse with
  | AgentOutcome.err m => (PyResult.raised m, s)
  | AgentOutcome.ok _parsed =>
    match ext.analyze with
    | AgentOutcome.err m => (PyResult.raised ("Analysis failed: " ++ m), s)
    | AgentOutcome.ok result =>
      let briefArtifact : Artifact :=
        { id := ext.briefId, project_id := p.id, type := ArtifactType.brief,
          status := ArtifactStatus.approved, version := 1,
          content := some (ArtifactContent.briefC result.brief),
          agent_name := "project_manager" }
      let s := { s with store := save_artifact briefArtifact s.store }
      if result.questions = [] then
        (PyResult.returned result, s)
      else
        let questionsArtifact : Artifact :=
          { id := ext.questionsId, project_id := p.id, type := ArtifactType.questions,
            status := ArtifactStatus.pending, version := 1,
            content := some (ArtifactContent.questionsC { questions := result.questions }),
            agent_name := "project_manager" }
        (PyResult.returned result, { s with store := save_artifact questionsArtifact s.store })

/-- `Orchestrator._stage_design` (lines 381-418): platforms other than the
two Telegram channels, when enabled, need banners; with none, return an
empty `BannerSet` without running the loop. -/
def stage_design (pid : String) (strategy : Strategy) (script : StageScript BannerSet)
    (s : OrchState) : LoopRun BannerSet :=
  let needing := strategy.platforms.filter
    (fun pc => pc.enabled && !(pc.platform == "telegram_ads" || pc.platform == "telegram_seeding"))
  if needing = [] then
    ⟨PyResult.returned { banners := [], total_count := 0 }, s, 0, 0⟩
  else
    create_with_review dumpBanners "designer" ArtifactType.banners pid
      script.gen script.rev script.ids max_revisions s

/-- `Orchestrator._continue_pipeline` (lines 211-245): stages 3-7, each a
status assignment, a `stage_start` event, and one revision loop; any raise
propagates to the caller's try block. -/
def continue_pipeline (p : Project) (_interview : ClientInterview) (ext : PipelineExt)
    (s : OrchState) : PyResult Unit × Project × OrchState :=
  let (p, s) := setStatus p ProjectStatus.strategy s
  let p := { p with current_stage := 3 }
  let s := emit s (Event.stage_start 3 "strategy")
  let runS := create_with_review dumpStrategy "strategist" ArtifactType.strategy p.id
    ext.strategyScript.gen ext.strategyScript.rev ext.strategyScript.ids max_revisions s
  match runS.result with
  | PyResult.raised m => (PyResult.raised m, p, runS.state)
  | PyResult.returned strategy =>
    let s := runS.state
    let (p, s) := setStatus p ProjectStatus.hypotheses s
    let p := { p with current_stage := 4 }
    let s := emit s (Event.stage_start 4 "hypotheses")
    let runH := create_with_review dumpHypotheses "strategist" ArtifactType.hypotheses p.id
      ext.hypothesesScript.gen ext.hypothesesScript.rev ext.hypothesesScript.ids max_revisions s
    match runH.result with
    | PyResult.raised m => (PyResult.raised m, p, runH.state)
    | PyResult.returned _hypotheses =>
      let s := runH.state
      let (p, s) := setStatus p ProjectStatus.copywriting s
      let p := { p with current_stage := 5 }
      let s := emit s (Event.stage_start 5 "copywriting")
      let runC := create_with_review dumpCreatives "copywriter" ArtifactType.copy p.id
        ext.copyScript.gen ext.copyScript.rev ext.copyScript.ids max_revisions s
      match runC.result with
      | PyResult.raised m => (PyResult.raised m, p, runC.state)
      | PyResult.returned _creatives =>
        let s := runC.state
        let (p, s) := setStatus p ProjectStatus.design s
        let p := { p with current_stage := 6 }
        let s := emit s (Event.stage_start 6 "design")
        let runD := stage_design p.id strategy ext.designScript s
        match runD.result with
        | PyResult.raised m => (PyResult.raised m, p, runD.state)
        | PyResult.returned _banners =>
          let s := runD.state
          let (p, s) := setStatus p ProjectStatus.completed s
          let p := { p with current_stage := 7 }
          let s := emit s (Event.pipeline_complete p.id)
          (PyResult.returned (), p, s)

/-- The `except Exception` handler shared by `run_pipeline` and
`continue_after_answers` (lines 90-94 / 122-126): set `FAILED`, record the
message, emit the error event, re-raise. -/
def pipelineFail (p : Project) (s : OrchState) (m : String) :
    PyResult Unit × Project × OrchState :=
  let (p, s) := setStatus p ProjectStatus.failed s
  let p := { p with error_message := some m }
  let s := emit s (Event.pipeline_error m)
  (PyResult.raised m, p, s)

/-- `Orchestrator.run_pipeline` (lines 57-94). -/
def run_pipeline (p : Project) (ext : PipelineExt) (s : OrchState) :
    PyResult Unit × Project × OrchState :=
  let (p, s) := setStatus p ProjectStatus.analyzing s
  let p := { p with current_stage := 1 }
  let s := emit s (Event.stage_start 1 "analyzing")
  match stage_analyze p ext s with
  | (PyResult.raised m, s) => pipelineFail p s m
  | (PyResult.returned analysis, s) =>
    let p := { p with brief := some analysis.brief }
    if analysis.questions = [] then
      -- no questions: continue with a default interview (lines 86-88)
      match continue_pipeline p {} ext s with
      | (PyResult.raised m, p, s) => pipelineFail p s m
      | (PyResult.returned _, p, s) => (PyResult.returned (), p, s)
    else
      -- questions: pause (lines 69-84)
      let (p, s) := setStatus p ProjectStatus.questions s
      let p := { p with current_stage := 2 }
      let s := emit s (Event.questions_ready p.id)
      let s := { s with waiting :=
        (p.id, { analysis := analysis, stage := "questions" }) ::
          s.waiting.filter (fun kv => kv.1 ≠ p.id) }
      (PyResult.returned (), p, s)

/-! ### Resume flow (core/orchestrator.py lines 96-209) -/

/-- A value of the free-form `answers` dict: Python str, int, bool or list
of strings. -/
inductive AnsVal
  | s (v : String)
  | i (v : Int)
  | b (v : Bool)
  | l (v : List String)
  deriving DecidableEq, Repr

/-- The `answers` dict. -/
def Answers : Type := List (String × AnsVal)

/-- `"key" in answers` / `answers["key"]`. -/
def lookupAns (k : String) (ans : Answers) : Option AnsVal :=
  (ans.find? (fun kv => kv.1 == k)).map (fun kv => kv.2)

/-- Python `int(v)`: identity on ints, 1/0 on bools (bool is an int
subtype), best-effort parse of trimmed strings, `TypeError` (= `none`,
caught by the surrounding try) on lists. -/
def pyInt : AnsVal → Option Int
  | AnsVal.i v => some v
  | AnsVal.b v => some (if v then 1 else 0)
  | AnsVal.s v => v.trim.toInt?
  | AnsVal.l _ => none

/-- Canonical string image of a value assigned unchecked to a string field
(pydantic does not validate plain attribute assignment, so the raw value is
stored; only its identity matters to the claims). -/
def pyStrImage : AnsVal → String
  | AnsVal.s v => v
  | AnsVal.i v => toString v
  | AnsVal.b v => if v then "True" else "False"
  | AnsVal.l v => toString v

/-- `isinstance(v, list) ? v : [x.strip() for x in v.split(",")]` — on a
non-list, non-string value `.split` raises `AttributeError`, which is not
caught. -/
def pyListOrSplit : AnsVal → Except String (List String)
  | AnsVal.l v => Except.ok v
  | AnsVal.s v => Except.ok ((v.splitOn ",").map String.trim)
  | AnsVal.i _ => Except.error "AttributeError: split"
  | AnsVal.b _ => Except.error "AttributeError: split"

/-- Python truthiness of an answers value. -/
def pyTruthy : AnsVal → Bool
  | AnsVal.s v => v ≠ ""
  | AnsVal.i v => v ≠ 0
  | AnsVal.b v => v
  | AnsVal.l v => v ≠ []

/-- `Orchestrator._parse_answers_to_interview` (lines 128-209). -/
def parse_answers_to_interview (answers : Answers) : Except String ClientInterview := do
  let mut itv : ClientInterview := {}
  if let some v := lookupAns "budget" answers then
    -- try/except around int(): failures are dropped
    if let some n := pyInt v then
      itv := { itv with budget_monthly := some n }
  if let some v := lookupAns "budget_type" answers then
    itv := { itv with budget_type := pyStrImage v }
  if let some v := lookupAns "primary_goal" answers then
    itv := { itv with primary_goal := pyStrImage v }
  if let some v := lookupAns "goals" answers then
    itv := { itv with secondary_goals := (← pyListOrSplit v) }
  if let some v := lookupAns "target_cpa" answers then
    if let some n := pyInt v then
      itv := { itv with target_cpa := some n }
  if let some v := lookupAns "target_audience" answers then
    itv := { itv with target_audience_description := pyStrImage v }
  if let some v := lookupAns "geo" answers then
    itv := { itv with geo := (← pyListOrSplit v) }
  if let some v := lookupAns "age_range" answers then
    itv := { itv with age_range := pyStrImage v }
  if let some v := lookupAns "gender" answers then
    itv := { itv with gender := pyStrImage v }
  if let some v := lookupAns "preferred_platforms" answers then
    itv := { itv with preferred_platforms := (← pyListOrSplit v) }
  if let some v := lookupAns "excluded_platforms" answers then
    itv := { itv with excluded_platforms := (← pyListOrSplit v) }
  if let some v := lookupAns "has_telegram_channel" answers then
    -- `v in [True, "true", "yes", "да", "1"]` (Python `1 == True`)
    itv := { itv with has_telegram_channel :=
      match v with
      | AnsVal.b bv => bv
      | AnsVal.s sv => sv == "true" || sv == "yes" || sv == "да" || sv == "1"
      | AnsVal.i iv => iv == 1
      | AnsVal.l _ => false }
  if let some v := lookupAns "telegram_channel_url" answers then
    itv := { itv with telegram_channel_url := some (pyStrImage v) }
  if let some v := lookupAns "restrictions" answers then
    match v with
    | AnsVal.l vs => itv := { itv with restrictions := vs }
    | _ => if pyTruthy v then itv := { itv with restrictions := [pyStrImage v] }
  if let some v := lookupAns "previous_experience" answers then
    itv := { itv with previous_experience := pyStrImage v }
  if let some v := lookupAns "what_worked" answers then
    itv := { itv with what_worked_before := pyStrImage v }
  if let some v := lookupAns "what_failed" answers then
    itv := { itv with what_failed_before := pyStrImage v }
  return itv

/-- `interview.budget_monthly or 50000` (Python `or`: `None` and `0` both
fall back). -/
def budgetOrDefault : Option Int → Int
  | none => 50000
  | some b => if b = 0 then 50000 else b

/-- `Orchestrator.continue_after_answers` (lines 96-126): parse the
answers, patch the latest `questions` artifact in place (attach interview,
set `all_answered`, set status `approved`) and re-append it, derive the
project settings, continue the pipeline; any raise is converted by the
except block. Note that `self.waiting_projects` is not touched anywhere on
this path. -/
def continue_after_answers (p : Project) (answers : Answers) (ext : PipelineExt)
    (s : OrchState) : PyResult Unit × Project × OrchState :=
  match parse_answers_to_interview answers with
  | Except.error m => pipelineFail p s m
  | Except.ok interview =>
    let s :=
      match latestWithIdx p.id ArtifactType.questions s.store with
      | none => s
      | some (i, qa) =>
        -- content = questions_artifact.content or {}; content["interview"] = ...;
        -- content["all_answered"] = True  (dict mutation kept abstract: a
        -- non-questions dict degenerates to one holding only the two keys)
        let newContent : ArtifactContent :=
          match qa.content with
          | some (ArtifactContent.questionsC qc) =>
            ArtifactContent.questionsC { qc with interview := some interview, all_answered := true }
          | _ =>
            ArtifactContent.questionsC { interview := some interview, all_answered := true }
        let qa' := { qa with content := some newContent, status := ArtifactStatus.approved }
        -- in-place mutation of the stored object, then save_artifact appends it again
        { s with store := save_artifact qa' (s.store.set i qa') }
    let newSettings : ProjectSettings :=
      { budget_monthly := some (budgetOrDefault interview.budget_monthly)
        goals := interview.primary_goal :: interview.secondary_goals
        target_audience_description := interview.target_audience_description }
    let p := { p with settings := some newSettings }
    match continue_pipeline p interview ext s with
    | (PyResult.raised m, p, s) => pipelineFail p s m
    | (PyResult.returned _, p, s) => (PyResult.returned (), p, s)

/-! ### Post-completion refinement operations (core/orchestrator.py lines 510-607) -/

/-- `Orchestrator.regenerate_creative` (lines 510-537): fetch the latest
`copy` artifact, run the copywriter, then mutate the fetched (stored)
artifact in place — new content, `version += 1` — and `save_artifact` the
same object again. -/
def regenerate_creative (p : Project) (_creative_id _feedback : String)
    (agentResult : AgentOutcome CreativeSet) (s : OrchState) :
    PyResult CreativeSet × OrchState :=
  match latestWithIdx p.id ArtifactType.copy s.store with
  | none => (PyResult.raised "No creatives found", s)
  | some (i, copyArtifact) =>
    match agentResult with
    | AgentOutcome.err m => (PyResult.raised ("Regeneration failed: " ++ m), s)
    | AgentOutcome.ok out =>
      let a' := { copyArtifact with
        content := some (ArtifactContent.creativesC out.creatives),
        version := copyArtifact.version + 1 }
      (PyResult.returned out, { s with store := save_artifact a' (s.store.set i a') })

/-- agents-facing instruction table of `create_variation` (lines 545-550). -/
def variation_instructions (variation_type : String) : String :=
  if variation_type == "tone" then "Создай вариацию с другим тоном (более серьёзный/игривый/срочный)"
  else if variation_type == "angle" then "Создай вариацию с другим углом подачи (другой акцент на УТП)"
  else if variation_type == "length" then "Создай вариацию другой длины (короче/длиннее)"
  else if variation_type == "cta" then "Создай вариацию с другим призывом к действию"
  else "Создай вариацию с другим тоном (более серьёзный/игривый/срочный)"

/-- `Orchestrator.create_variation` (lines 539-573): same store effect as
`regenerate_creative`. -/
def create_variation (p : Project) (_creative_id : String) (_variation_type : String)
    (agentResult : AgentOutcome CreativeSet) (s : OrchState) :
    PyResult CreativeSet × OrchState :=
  match latestWithIdx p.id ArtifactType.copy s.store with
  | none => (PyResult.raised "No creatives found", s)
  | some (i, copyArtifact) =>
    match agentResult with
    | AgentOutcome.err m => (PyResult.raised ("Variation failed: " ++ m), s)
    | AgentOutcome.ok out =>
      let a' := { copyArtifact with
        content := some (ArtifactContent.creativesC out.creatives),
        version := copyArtifact.version + 1 }
      (PyResult.returned out, { s with store := save_artifact a' (s.store.set i a') })

/-- `copy_artifact.content.get("creatives", [])`: raises on a `None`
content (`AttributeError`), returns the `creatives` list of a copy dump,
and the default `[]` for a dict without the key. -/
def contentCreatives : Option ArtifactContent → Except String (List String)
  | none => Except.error "AttributeError: get"
  | some (ArtifactContent.creativesC cs) => Except.ok cs
  | some _ => Except.ok []

/-- `Orchestrator.generate_more` (lines 575-607): fetch the latest
`strategy` and `copy` artifacts, run the copywriter, merge the new
creatives into the stored dict in place, `version += 1`, re-append. -/
def generate_more (p : Project) (_platform : String) (_count : Nat)
    (agentResult : AgentOutcome CreativeSet) (s : OrchState) :
    PyResult CreativeSet × OrchState :=
  match latestWithIdx p.id ArtifactType.strategy s.store,
        latestWithIdx p.id ArtifactType.copy s.store with
  | none, _ => (PyResult.raised "Strategy or creatives not found", s)
  | some _, none => (PyResult.raised "Strategy or creatives not found", s)
  | some _, some (i, copyArtifact) =>
    match agentResult with
    | AgentOutcome.err m => (PyResult.raised ("Generation failed: " ++ m), s)
    | AgentOutcome.ok out =>
      match contentCreatives copyArtifact.content with
      | Except.error m => (PyResult.raised m, s)
      | Except.ok existing =>
        let a' := { copyArtifact with
          content := some (ArtifactContent.creativesC (existing ++ out.creatives)),
          version := copyArtifact.version + 1 }
        (PyResult.returned out, { s with store := save_artifact a' (s.store.set i a') })

/-! ### submit_answers route (routes/projects.py lines 165-185) -/

/-- Whole-application state the route can see: `projects_db` plus the
orchestrator state. -/
structure AppState where
  projects : List (String × Project) := []
  orch : OrchState := {}
  deriving DecidableEq, Repr

/-- `projects_db.get(project_id)`. -/
def lookupProject (pid : String) (st : AppState) : Option Project :=
  (st.projects.find? (fun kv => kv.1 == pid)).map (fun kv => kv.2)

/-- FastAPI result of the route: a JSON reply or an `HTTPException`. -/
inductive HttpResult (α : Type)
  | ok (a : α)
  | httpError (code : Nat) (detail : String)
  deriving DecidableEq, Repr

/-- Success payload of `submit_answers`. -/
structure SubmitOk where
  message : String
  project_id : String
  answers_count : Nat
  deriving DecidableEq, Repr

/-- A task handed to FastAPI `BackgroundTasks` (scheduled, not yet run). -/
inductive BackgroundTask
  | continueAfterAnswers (pid : String) (answers : Answers)

/-- The status string interpolated into the 400 detail message. -/
def statusValue : ProjectStatus → String
  | ProjectStatus.created => "created"
  | ProjectStatus.analyzing => "analyzing"
  | ProjectStatus.questions => "questions"
  | ProjectStatus.strategy => "strategy"
  | ProjectStatus.hypotheses => "hypotheses"
  | ProjectStatus.copywriting => "copywriting"
  | ProjectStatus.design => "design"
  | ProjectStatus.review => "review"
  | ProjectStatus.completed => "completed"
  | ProjectStatus.failed => "failed"

/-- routes/projects.py `submit_answers` (lines 165-185): 404 on unknown
project, 400 when the status is not `QUESTIONS`, otherwise schedule
`continue_after_answers` as a background task and reply.  Neither error
path touches any state. -/
def submit_answers (pid : String) (answers : Answers) (st : AppState) :
    HttpResult SubmitOk × AppState × List BackgroundTask :=
  match lookupProject pid st with
  | none => (HttpResult.httpError 404 "Project not found", st, [])
  | some p =>
    if p.status ≠ ProjectStatus.questions then
      (HttpResult.httpError 400
        ("Project is not waiting for answers (current status: " ++ statusValue p.status ++ ")"),
       st, [])
    else
      (HttpResult.ok
        { message := "Answers received, continuing pipeline",
          project_id := pid, answers_count := answers.length },
       st, [BackgroundTask.continueAfterAnswers pid answers])

/-! ## Shared lemmas -/

theorem updateLast_append (f : Artifact → Artifact) (l : List Artifact) (a : Artifact) :
    updateLast f (l ++ [a]) = l ++ [f a] := by
  induction l with
  | nil => rfl
  | cons x xs ih =>
    cases xs with
    | nil => rfl
    | cons y ys =>
      exact congrArg (fun l => x :: l) ih

/-! ## Concrete scripts used by witnesses and counterexamples -/

def natDump : Nat → ArtifactContent := fun n => ArtifactContent.rawC (toString n)

def wIds : Nat → String := fun k => "art-" ++ toString k

/-- Creation script: every attempt `k` succeeds with output `k + 10`. -/
def genOk : Nat → AgentOutcome Nat := fun k => AgentOutcome.ok (k + 10)

/-- Review script: every review is delivered, rejecting (score 3, not
approved). -/
def revLow : Nat → ReviewOutcome :=
  fun _ => ReviewOutcome.ok { approved := false, score := 3, feedback := "bad" }

/-- Review script: every review is delivered with score 9, not approved. -/
def revHigh : Nat → ReviewOutcome :=
  fun _ => ReviewOutcome.ok { approved := false, score := 9, feedback := "good" }

/-- Review script: the review call itself fails every time. -/
def revErr : Nat → ReviewOutcome := fun _ => ReviewOutcome.err "boom"

/-! ## Closed form of an all-rejecting run of the revision loop -/

/-- The artifacts appended by `fuel` consecutive rejected attempts
starting at attempt `revisions`: each saved with status `review` and then
mutated to `revision` with the review's feedback. -/
def rejectArtifacts {α : Type} (dump : α → ArtifactContent) (an : String)
    (atype : ArtifactType) (pid : String) (ids : Nat → String)
    (outs : Nat → α) (rs : Nat → ReviewResult) : Nat → Nat → List Artifact
  | _, 0 => []
  | revisions, fuel + 1 =>
    { mkAttemptArtifact dump an atype pid ids revisions (outs revisions) with
        status := ArtifactStatus.revision,
        review_notes := some (rs revisions).feedback } ::
      rejectArtifacts dump an atype pid ids outs rs (revisions + 1) fuel

/-- The events emitted by `fuel` consecutive rejected attempts starting at
attempt `revisions`. -/
def rejectEvents (atype : ArtifactType) (rs : Nat → ReviewResult) : Nat → Nat → List Event
  | _, 0 => []
  | revisions, fuel + 1 =>
    Event.artifact_revision atype (revisions + 1) (rs revisions).feedback ::
      rejectEvents atype rs (revisions + 1) fuel

def isRevisionEvent : Event → Bool
  | Event.artifact_revision _ _ _ => true
  | _ => false

def isApprovedEvent : Event → Bool
  | Event.artifact_approved _ _ => true
  | _ => false

def countRevisionEvents (l : List Event) : Nat := (l.filter isRevisionEvent).length

def countApprovedEvents (l : List Event) : Nat := (l.filter isApprovedEvent).length

theorem countRevisionEvents_append (l1 l2 : List Event) :
    countRevisionEvents (l1 ++ l2) = countRevisionEvents l1 + countRevisionEvents l2 := by
  simp [countRevisionEvents, List.filter_append]

theorem countApprovedEvents_append (l1 l2 : List Event) :
    countApprovedEvents (l1 ++ l2) = countApprovedEvents l1 + countApprovedEvents l2 := by
  simp [countApprovedEvents, List.filter_append]

theorem rejectEvents_countRevision (atype : ArtifactType) (rs : Nat → ReviewResult) :
    ∀ (fuel revisions : Nat),
      countRevisionEvents (rejectEvents atype rs revisions fuel) = fuel := by
  intro fuel
  induction fuel with
  | zero => intro revisions; rfl
  | succ f ih =>
    intro revisions
    simp [rejectEvents, countRevisionEvents, isRevisionEvent, List.filter] at ih ⊢
    exact ih (revisions + 1)

theorem rejectEvents_countApproved (atype : ArtifactType) (rs : Nat → ReviewResult) :
    ∀ (fuel revisions : Nat),
      countApprovedEvents (rejectEvents atype rs revisions fuel) = 0 := by
  intro fuel
  induction fuel with
  | zero => intro revisions; rfl
  | succ f ih =>
    intro revisions
    simp [rejectEvents, countApprovedEvents, isApprovedEvent, List.filter] at ih ⊢
    exact ih (revisions + 1)

theorem rejectArtifacts_status {α : Type} (dump : α → ArtifactContent) (an : String)
    (atype : ArtifactType) (pid : String) (ids : Nat → String)
    (outs : Nat → α) (rs : Nat → ReviewResult) :
    ∀ (fuel revisions : Nat) (a : Artifact),
      a ∈ rejectArtifacts dump an atype pid ids outs rs revisions fuel →
      a.status = ArtifactStatus.revision := by
  intro fuel
  induction fuel with
  | zero => intro revisions a ha; simp [rejectArtifacts] at ha
  | succ f ih =>
    intro revisions a ha
    simp only [rejectArtifacts, List.mem_cons] at ha
    rcases ha with h | h
    · rw [h]
    · exact ih (revisions + 1) a h

/-- Closed form of a run of the loop body in which every consulted review
is delivered, not approved, and scores below 8: every iteration takes the
revision branch, so the run performs exactly `fuel` creation and review
calls, appends exactly the `rejectArtifacts`, emits exactly the
`rejectEvents`, and finally returns the output of the last attempt. -/
theorem go_all_reject {α : Type} (dump : α → ArtifactContent) (an : String)
    (atype : ArtifactType) (pid : String) (gen : Nat → AgentOutcome α)
    (rev : Nat → ReviewOutcome) (ids : Nat → String)
    (outs : Nat → α) (rs : Nat → ReviewResult) :
    ∀ (fuel revisions : Nat) (last : Option α) (s : OrchState) (att rc : Nat),
      (∀ k, k < fuel →
        gen (revisions + k) = AgentOutcome.ok (outs (revisions + k)) ∧
        rev (revisions + k) = ReviewOutcome.ok (rs (revisions + k)) ∧
        (rs (revisions + k)).approved = false ∧ (rs (revisions + k)).score < 8) →
      createWithReviewGo dump an atype pid gen rev ids revisions fuel last s att rc =
        ⟨(if fuel = 0 then loopExitResult last
          else PyResult.returned (outs (revisions + fuel - 1))),
         { s with
            store := s.store ++ rejectArtifacts dump an atype pid ids outs rs revisions fuel,
            events := s.events ++ rejectEvents atype rs revisions fuel },
         att + fuel, rc + fuel⟩ := by
  intro fuel
  induction fuel with
  | zero =>
    intro revisions last s att rc _
    simp [createWithReviewGo, rejectArtifacts, rejectEvents]
  | succ f ih =>
    intro revisions last s att rc H
    obtain ⟨hg, hr, hap, hsc⟩ := H 0 (Nat.succ_pos f)
    rw [Nat.add_zero] at hg hr hap hsc
    have hnacc : ¬((rs revisions).approved = true ∨ 8 ≤ (rs revisions).score) := by
      rintro (h | h)
      · rw [hap] at h; exact Bool.false_ne_true h
      · omega
    have H' : ∀ k, k < f →
        gen (revisions + 1 + k) = AgentOutcome.ok (outs (revisions + 1 + k)) ∧
        rev (revisions + 1 + k) = ReviewOutcome.ok (rs (revisions + 1 + k)) ∧
        (rs (revisions + 1 + k)).approved = false ∧ (rs (revisions + 1 + k)).score < 8 := by
      intro k hk
      have h := H (k + 1) (by omega)
      rwa [show revisions + (k + 1) = revisions + 1 + k by omega] at h
    simp only [createWithReviewGo, hg, hr, save_artifact, if_neg hnacc, emit, updateLast_append]
    rw [ih (revisions + 1) (some (outs revisions)) _ (att + 1) (rc + 1) H']
    congr 1
    · cases f with
      | zero => simp [loopExitResult]
      | succ f' =>
        simp only [if_neg (Nat.succ_ne_zero f'), if_neg (Nat.succ_ne_zero (f' + 1))]
        rw [show revisions + 1 + (f' + 1) - 1 = revisions + (f' + 1 + 1) - 1 by omega]
    · dsimp only
      simp only [rejectArtifacts, rejectEvents, List.append_assoc, List.singleton_append]
    · omega
    · omega

/-- Each run of the loop body performs at most one creation call per unit
of remaining fuel. -/
theorem go_attempts_le {α : Type} (dump : α → ArtifactContent) (an : String)
    (atype : ArtifactType) (pid : String) (gen : Nat → AgentOutcome α)
    (rev : Nat → ReviewOutcome) (ids : Nat → String) :
    ∀ (fuel revisions : Nat) (last : Option α) (s : OrchState) (att rc : Nat),
      (createWithReviewGo dump an atype pid gen rev ids revisions fuel last s att rc).attempts ≤
        att + fuel := by
  intro fuel
  induction fuel with
  | zero => intro revisions last s att rc; simp [createWithReviewGo]
  | succ f ih =>
    intro revisions last s att rc
    simp only [createWithReviewGo]
    cases gen revisions with
    | err m => dsimp only; omega
    | ok out =>
      dsimp only
      cases rev revisions with
      | err m => dsimp only; omega
      | ok r =>
        dsimp only
        by_cases hacc : (r.approved = true ∨ 8 ≤ r.score)
        · rw [if_pos hacc]; dsimp only; omega
        · rw [if_neg hacc]
          exact le_trans (ih _ _ _ _ _) (by omega)

/-- Any normally returned output of the loop body was produced by a
successful creation call of one of the consulted attempts, unless it was
already the bound value of the local `output` on entry. -/
theorem go_returned_from {α : Type} (dump : α → ArtifactContent) (an : String)
    (atype : ArtifactType) (pid : String) (gen : Nat → AgentOutcome α)
    (rev : Nat → ReviewOutcome) (ids : Nat → String) :
    ∀ (fuel revisions : Nat) (last : Option α) (s : OrchState) (att rc : Nat) (out : α),
      (createWithReviewGo dump an atype pid gen rev ids revisions fuel last s att rc).result =
        PyResult.returned out →
      (∃ k, revisions ≤ k ∧ k < revisions + fuel ∧ gen k = AgentOutcome.ok out) ∨
        last = some out := by
  intro fuel
  induction fuel with
  | zero =>
    intro revisions last s att rc out h
    simp only [createWithReviewGo] at h
    cases last with
    | none => exact absurd h (by simp [loopExitResult])
    | some o =>
      simp only [loopExitResult, PyResult.returned.injEq] at h
      exact Or.inr (by rw [h])
  | succ f ih =>
    intro revisions last s att rc out h
    simp only [createWithReviewGo] at h
    cases hg : gen revisions with
    | err m => rw [hg] at h; dsimp only at h; simp at h
    | ok o =>
      rw [hg] at h; dsimp only at h
      cases hr : rev revisions with
      | err m =>
        rw [hr] at h; dsimp only at h
        simp only [PyResult.returned.injEq] at h
        exact Or.inl ⟨revisions, le_refl _, by omega, by rw [hg, h]⟩
      | ok r =>
        rw [hr] at h; dsimp only at h
        by_cases hacc : (r.approved = true ∨ 8 ≤ r.score)
        · rw [if_pos hacc] at h
          simp only [PyResult.returned.injEq] at h
          exact Or.inl ⟨revisions, le_refl _, by omega, by rw [hg, h]⟩
        · rw [if_neg hacc] at h
          rcases ih (revisions + 1) (some o) _ (att + 1) (rc + 1) out h with
            ⟨k, hk1, hk2, hk3⟩ | hlast
          · exact Or.inl ⟨k, by omega, by omega, hk3⟩
          · simp only [Option.some.injEq] at hlast
            exact Or.inl ⟨revisions, le_refl _, by omega, by rw [hg, hlast]⟩

/-! ## C1: acceptance condition of the revision loop -/

/-- C1.  In `_create_with_review`, at any loop iteration whose creation
call succeeds and whose review call is delivered successfully (`gen
revisions = ok out`, `rev revisions = ok r`), the loop accepts exactly when
`r.approved` is true or `r.score ≥ 8`: on acceptance it mutates the
just-saved artifact's status to `approved`, emits `artifact_approved`
carrying the score, and returns the output, terminating the loop; when the
condition fails it does not accept — it marks the artifact `revision`,
emits `artifact_revision`, and continues the loop on the next attempt. -/
theorem c1_review_acceptance {α : Type} (dump : α → ArtifactContent) (an : String)
    (atype : ArtifactType) (pid : String) (gen : Nat → AgentOutcome α)
    (rev : Nat → ReviewOutcome) (ids : Nat → String)
    (revisions fuel : Nat) (last : Option α) (s : OrchState) (att rc : Nat)
    (out : α) (r : ReviewResult)
    (hg : gen revisions = AgentOutcome.ok out)
    (hr : rev revisions = ReviewOutcome.ok r) :
    ((r.approved = true ∨ 8 ≤ r.score) →
      createWithReviewGo dump an atype pid gen rev ids revisions (fuel + 1) last s att rc =
        ⟨PyResult.returned out,
         { s with
            store := s.store ++
              [{ mkAttemptArtifact dump an atype pid ids revisions out with
                  status := ArtifactStatus.approved }],
            events := s.events ++ [Event.artifact_approved atype r.score] },
         att + 1, rc + 1⟩)
    ∧ (¬(r.approved = true ∨ 8 ≤ r.score) →
      createWithReviewGo dump an atype pid gen rev ids revisions (fuel + 1) last s att rc =
        createWithReviewGo dump an atype pid gen rev ids (revisions + 1) fuel (some out)
          { s with
              store := s.store ++
                [{ mkAttemptArtifact dump an atype pid ids revisions out with
                    status := ArtifactStatus.revision,
                    review_notes := some r.feedback }],
              events := s.events ++ [Event.artifact_revision atype (revisions + 1) r.feedback] }
          (att + 1) (rc + 1)) := by
  constructor
  · intro h
    simp only [createWithReviewGo, hg, hr, save_artifact, if_pos h, emit, updateLast_append]
  · intro h
    simp only [createWithReviewGo, hg, hr, save_artifact, if_neg h, emit, updateLast_append]

/-- Witness for C1: a concrete accepted attempt (score 9, `approved`
false). -/
theorem c1_witness :
    createWithReviewGo natDump "copywriter" ArtifactType.copy "p1" genOk revHigh wIds
        0 3 none {} 0 0 =
      ⟨PyResult.returned 10,
       { store := [{ mkAttemptArtifact natDump "copywriter" ArtifactType.copy "p1" wIds 0 10 with
                      status := ArtifactStatus.approved }],
         events := [Event.artifact_approved ArtifactType.copy 9] },
       1, 1⟩ :=
  (c1_review_acceptance natDump "copywriter" ArtifactType.copy "p1" genOk revHigh wIds
    0 2 none {} 0 0 10 { approved := false, score := 9, feedback := "good" }
    rfl rfl).1 (Or.inr (by decide))

/-! ## C4: review-call failure accepts the current output -/

/-- C4.  In `_create_with_review`, when the review call itself reports
failure (`review_response.success` false), the loop does not raise: the
just-saved artifact's status is mutated to `approved`, the current output
is returned immediately, the loop terminates after this single creation
attempt, and no further event is emitted. -/
theorem c4_review_failure_accepts {α : Type} (dump : α → ArtifactContent) (an : String)
    (atype : ArtifactType) (pid : String) (gen : Nat → AgentOutcome α)
    (rev : Nat → ReviewOutcome) (ids : Nat → String)
    (revisions fuel : Nat) (last : Option α) (s : OrchState) (att rc : Nat)
    (out : α) (m : String)
    (hg : gen revisions = AgentOutcome.ok out)
    (hr : rev revisions = ReviewOutcome.err m) :
    createWithReviewGo dump an atype pid gen rev ids revisions (fuel + 1) last s att rc =
      ⟨PyResult.returned out,
       { s with store := s.store ++
          [{ mkAttemptArtifact dump an atype pid ids revisions out with
              status := ArtifactStatus.approved }] },
       att + 1, rc + 1⟩ := by
  simp only [createWithReviewGo, hg, hr, save_artifact, updateLast_append]

/-- Witness for C4 at a concrete failing review. -/
theorem c4_witness :
    createWithReviewGo natDump "strategist" ArtifactType.strategy "p1" genOk revErr wIds
        0 3 none {} 0 0 =
      ⟨PyResult.returned 10,
       { store := [{ mkAttemptArtifact natDump "strategist" ArtifactType.strategy "p1" wIds 0 10 with
                      status := ArtifactStatus.approved }] },
       1, 1⟩ :=
  c4_review_failure_accepts natDump "strategist" ArtifactType.strategy "p1" genOk revErr wIds
    0 2 none {} 0 0 10 "boom" rfl rfl

/-! ## C2: termination and liveness of the revision loop -/

/-- C2.  For every script of creation and review outcomes,
`_create_with_review` performs at most `max_revisions + 1` creation
attempts before returning (the code in fact performs at most
`max_revisions`); whenever it returns normally, the returned output is one
produced by a successful creation call (the repository's agents always
attach a constructed output object to a success response, so the value is
non-null); and when the revision counter reaches `max_revisions` with
every delivered review rejecting, the output of the last attempt is
returned with exactly `max_revisions` creation calls and `max_revisions`
review calls — no further creation or review call happens after the
counter is exhausted. -/
theorem c2_loop_termination {α : Type} (dump : α → ArtifactContent) (an : String)
    (atype : ArtifactType) (pid : String) (gen : Nat → AgentOutcome α)
    (rev : Nat → ReviewOutcome) (ids : Nat → String) (maxRev : Nat) (s : OrchState)
    (outs : Nat → α) (rs : Nat → ReviewResult) :
    (create_with_review dump an atype pid gen rev ids maxRev s).attempts ≤ maxRev + 1
    ∧ (∀ out,
        (create_with_review dump an atype pid gen rev ids maxRev s).result =
          PyResult.returned out →
        ∃ k, k < maxRev ∧ gen k = AgentOutcome.ok out)
    ∧ ((0 < maxRev ∧ ∀ k, k < maxRev →
          gen k = AgentOutcome.ok (outs k) ∧ rev k = ReviewOutcome.ok (rs k) ∧
          (rs k).approved = false ∧ (rs k).score < 8) →
        (create_with_review dump an atype pid gen rev ids maxRev s).result =
            PyResult.returned (outs (maxRev - 1))
        ∧ (create_with_review dump an atype pid gen rev ids maxRev s).attempts = maxRev
        ∧ (create_with_review dump an atype pid gen rev ids maxRev s).reviewCalls = maxRev) := by
  refine ⟨?_, ?_, ?_⟩
  · exact le_trans (go_attempts_le dump an atype pid gen rev ids maxRev 0 none s 0 0) (by omega)
  · intro out h
    rcases go_returned_from dump an atype pid gen rev ids maxRev 0 none s 0 0 out h with
      ⟨k, _, hk2, hk3⟩ | hl
    · exact ⟨k, by omega, hk3⟩
    · cases hl
  · rintro ⟨hpos, H⟩
    have H0 : ∀ k, k < maxRev →
        gen (0 + k) = AgentOutcome.ok (outs (0 + k)) ∧
        rev (0 + k) = ReviewOutcome.ok (rs (0 + k)) ∧
        (rs (0 + k)).approved = false ∧ (rs (0 + k)).score < 8 := by
      intro k hk
      rw [Nat.zero_add]
      exact H k hk
    have hrun := go_all_reject dump an atype pid gen rev ids outs rs maxRev 0 none s 0 0 H0
    rw [create_with_review, hrun]
    refine ⟨?_, ?_, ?_⟩
    · dsimp only
      rw [if_neg (by omega), Nat.zero_add]
    · dsimp only
      omega
    · dsimp only
      omega

/-- Witness for C2 at the concrete all-rejecting scripts (`genOk`,
`revLow`) and `max_revisions = 3`. -/
theorem c2_witness :
    (create_with_review natDump "strategist" ArtifactType.strategy "p1" genOk revLow wIds
        max_revisions {}).attempts ≤ max_revisions + 1
    ∧ (∃ k, k < max_revisions ∧ genOk k = AgentOutcome.ok 12)
    ∧ (create_with_review natDump "strategist" ArtifactType.strategy "p1" genOk revLow wIds
        max_revisions {}).result = PyResult.returned 12
    ∧ (create_with_review natDump "strategist" ArtifactType.strategy "p1" genOk revLow wIds
        max_revisions {}).attempts = max_revisions
    ∧ (create_with_review natDump "strategist" ArtifactType.strategy "p1" genOk revLow wIds
        max_revisions {}).reviewCalls = max_revisions := by
  have h := c2_loop_termination natDump "strategist" ArtifactType.strategy "p1" genOk revLow wIds
    max_revisions {} (fun k => k + 10)
    (fun _ => { approved := false, score := 3, feedback := "bad" })
  have hc := h.2.2 ⟨by decide, by decide⟩
  exact ⟨h.1, h.2.1 12 hc.1, hc.1, hc.2.1, hc.2.2⟩

/-! ## C3: all-rejecting run (corrected: the artifact_revision event is
emitted exactly max_revisions times, not max_revisions - 1) -/

/-- Counterexample to C3 as stated.  Concrete input: `max_revisions = 3`,
every creation call succeeds (attempt `k` yields output `k + 10`), every
review is delivered with `approved = false` and score `3 < 8`.  The run
matches the claim's premise and performs exactly `max_revisions` creation
attempts returning the last output (12), but it emits the
`artifact_revision` event exactly 3 times — one per rejected attempt —
whereas the claim says `max_revisions - 1 = 2` times. -/
theorem c3_counterexample :
    (create_with_review natDump "strategist" ArtifactType.strategy "p1" genOk revLow wIds
        max_revisions {}).attempts = max_revisions
    ∧ (create_with_review natDump "strategist" ArtifactType.strategy "p1" genOk revLow wIds
        max_revisions {}).result = PyResult.returned 12
    ∧ countRevisionEvents
        (create_with_review natDump "strategist" ArtifactType.strategy "p1" genOk revLow wIds
          max_revisions {}).state.events = 3
    ∧ (3 : Nat) ≠ max_revisions - 1 := by
  decide

/-- C3 (amended).  For a run of `_create_with_review` in which every
review call succeeds but every review has `approved = false` and score
below 8, the loop performs exactly `max_revisions` creation attempts,
returns the output of the last attempt, and emits the `artifact_revision`
event exactly `max_revisions` times (once per rejected attempt — including
the final attempt, which is reviewed, rejected, and then force-accepted
when the loop condition fails). -/
theorem c3_all_reject_events {α : Type} (dump : α → ArtifactContent) (an : String)
    (atype : ArtifactType) (pid : String) (gen : Nat → AgentOutcome α)
    (rev : Nat → ReviewOutcome) (ids : Nat → String) (maxRev : Nat) (s : OrchState)
    (outs : Nat → α) (rs : Nat → ReviewResult)
    (hpos : 0 < maxRev)
    (H : ∀ k, k < maxRev →
      gen k = AgentOutcome.ok (outs k) ∧ rev k = ReviewOutcome.ok (rs k) ∧
      (rs k).approved = false ∧ (rs k).score < 8) :
    (create_with_review dump an atype pid gen rev ids maxRev s).attempts = maxRev
    ∧ (create_with_review dump an atype pid gen rev ids maxRev s).result =
        PyResult.returned (outs (maxRev - 1))
    ∧ countRevisionEvents
        (create_with_review dump an atype pid gen rev ids maxRev s).state.events =
      countRevisionEvents s.events + maxRev := by
  have H0 : ∀ k, k < maxRev →
      gen (0 + k) = AgentOutcome.ok (outs (0 + k)) ∧
      rev (0 + k) = ReviewOutcome.ok (rs (0 + k)) ∧
      (rs (0 + k)).approved = false ∧ (rs (0 + k)).score < 8 := by
    intro k hk
    rw [Nat.zero_add]
    exact H k hk
  have hrun := go_all_reject dump an atype pid gen rev ids outs rs maxRev 0 none s 0 0 H0
  rw [create_with_review, hrun]
  refine ⟨by dsimp only; omega, ?_, ?_⟩
  · dsimp only
    rw [if_neg (by omega), Nat.zero_add]
  · dsimp only
    rw [countRevisionEvents_append, rejectEvents_countRevision]

/-- Witness for the amended C3. -/
theorem c3_witness :
    (create_with_review natDump "copywriter" ArtifactType.copy "p1" genOk revLow wIds
        max_revisions {}).attempts = max_revisions
    ∧ (create_with_review natDump "copywriter" ArtifactType.copy "p1" genOk revLow wIds
        max_revisions {}).result = PyResult.returned 12
    ∧ countRevisionEvents
        (create_with_review natDump "copywriter" ArtifactType.copy "p1" genOk revLow wIds
          max_revisions {}).state.events =
      countRevisionEvents (OrchState.events {}) + max_revisions :=
  c3_all_reject_events natDump "copywriter" ArtifactType.copy "p1" genOk revLow wIds
    max_revisions {} (fun k => k + 10)
    (fun _ => { approved := false, score := 3, feedback := "bad" })
    (by decide) (by decide)

/-! ## C10: an exhausted loop leaves no approved artifact and emits no
approval event -/

/-- C10.  When the revision loop exits by exhausting `max_revisions`
(every delivered review rejecting), every artifact it saved keeps status
`revision` — none is ever set to `approved` on this path — and no
`artifact_approved` event is emitted; hence if the store had no approved
artifact of the stage's type before the run, it has none after the
force-accepted stage either. -/
theorem c10_exhausted_no_approval {α : Type} (dump : α → ArtifactContent) (an : String)
    (atype : ArtifactType) (pid : String) (gen : Nat → AgentOutcome α)
    (rev : Nat → ReviewOutcome) (ids : Nat → String) (maxRev : Nat) (s : OrchState)
    (outs : Nat → α) (rs : Nat → ReviewResult)
    (H : ∀ k, k < maxRev →
      gen k = AgentOutcome.ok (outs k) ∧ rev k = ReviewOutcome.ok (rs k) ∧
      (rs k).approved = false ∧ (rs k).score < 8)
    (hstore : ∀ a ∈ s.store, a.type = atype → a.status ≠ ArtifactStatus.approved) :
    (create_with_review dump an atype pid gen rev ids maxRev s).state.store =
        s.store ++ rejectArtifacts dump an atype pid ids outs rs 0 maxRev
    ∧ (∀ a ∈ rejectArtifacts dump an atype pid ids outs rs 0 maxRev,
        a.status = ArtifactStatus.revision)
    ∧ (∀ a ∈ (create_with_review dump an atype pid gen rev ids maxRev s).state.store,
        a.type = atype → a.status ≠ ArtifactStatus.approved)
    ∧ countApprovedEvents
        (create_with_review dump an atype pid gen rev ids maxRev s).state.events =
      countApprovedEvents s.events := by
  have H0 : ∀ k, k < maxRev →
      gen (0 + k) = AgentOutcome.ok (outs (0 + k)) ∧
      rev (0 + k) = ReviewOutcome.ok (rs (0 + k)) ∧
      (rs (0 + k)).approved = false ∧ (rs (0 + k)).score < 8 := by
    intro k hk
    rw [Nat.zero_add]
    exact H k hk
  have hrun := go_all_reject dump an atype pid gen rev ids outs rs maxRev 0 none s 0 0 H0
  rw [create_with_review, hrun]
  dsimp only
  refine ⟨rfl, rejectArtifacts_status dump an atype pid ids outs rs maxRev 0, ?_, ?_⟩
  · intro a ha hat
    rcases List.mem_append.mp ha with h | h
    · exact hstore a h hat
    · have := rejectArtifacts_status dump an atype pid ids outs rs maxRev 0 a h
      rw [this]
      intro hcontra
      cases hcontra
  · rw [countApprovedEvents_append, rejectEvents_countApproved]
    omega

/-- Witness for C10 at the concrete all-rejecting scripts, starting from
the empty store. -/
theorem c10_witness :
    (create_with_review natDump "designer" ArtifactType.banners "p1" genOk revLow wIds
        max_revisions {}).state.store =
        OrchState.store {} ++
          rejectArtifacts natDump "designer" ArtifactType.banners "p1" wIds (fun k => k + 10)
            (fun _ => { approved := false, score := 3, feedback := "bad" }) 0 max_revisions
    ∧ (∀ a ∈ rejectArtifacts natDump "designer" ArtifactType.banners "p1" wIds (fun k => k + 10)
          (fun _ => { approved := false, score := 3, feedback := "bad" }) 0 max_revisions,
        a.status = ArtifactStatus.revision)
    ∧ (∀ a ∈ (create_with_review natDump "designer" ArtifactType.banners "p1" genOk revLow wIds
          max_revisions {}).state.store,
        a.type = ArtifactType.banners → a.status ≠ ArtifactStatus.approved)
    ∧ countApprovedEvents
        (create_with_review natDump "designer" ArtifactType.banners "p1" genOk revLow wIds
          max_revisions {}).state.events =
      countApprovedEvents (OrchState.events {}) :=
  c10_exhausted_no_approval natDump "designer" ArtifactType.banners "p1" genOk revLow wIds
    max_revisions {} (fun k => k + 10)
    (fun _ => { approved := false, score := 3, feedback := "bad" })
    (by decide) (by intro a ha; cases ha)

/-! ## C9: event emitter delivery -/

/-- C9.  `_emit_event` calls every registered observer exactly once,
synchronously, in registration order, and never lets an exception
propagate: the run returns normally with the recorded outcome of each
observer in order, so an observer that raises is caught and ignored and
every observer after it is still invoked on the event. -/
theorem c9_emit_event_delivers_all (cbs : List Callback) (e : Event) :
    emit_event cbs e = PyResult.returned (cbs.map (fun cb => cb e)) := by
  induction cbs with
  | nil => rfl
  | cons cb rest ih =>
    cases hcb : cb e <;>
      simp only [emit_event, tryExceptPass, hcb, ih, List.map_cons]

/-! ## C6: submit_answers precondition -/

/-- C6.  For a project whose status is not `QUESTIONS`, `submit_answers`
rejects synchronously with a 400 error, returns the application state
unchanged (projects, artifact store, events, paused-context map all
identical), and schedules no background continuation. -/
theorem c6_submit_answers_rejected (pid : String) (answers : Answers) (st : AppState)
    (p : Project) (hp : lookupProject pid st = some p)
    (hst : p.status ≠ ProjectStatus.questions) :
    submit_answers pid answers st =
      (HttpResult.httpError 400
        ("Project is not waiting for answers (current status: " ++ statusValue p.status ++ ")"),
       st, []) := by
  simp only [submit_answers, hp, if_pos hst]

/-- Witness project and state for C6: a project in status `COMPLETED`. -/
def c6proj : Project :=
  { id := "p1", user_id := "user_1", name := "Project p1", url := "http://example.com",
    status := ProjectStatus.completed }

def c6state : AppState := { projects := [("p1", c6proj)] }

/-- Witness for C6. -/
theorem c6_witness :
    submit_answers "p1" [] c6state =
      (HttpResult.httpError 400
        ("Project is not waiting for answers (current status: " ++ statusValue c6proj.status ++ ")"),
       c6state, []) :=
  c6_submit_answers_rejected "p1" [] c6state c6proj rfl (by decide)

/-! ## C5: artifact immutability (corrected: the refinement operations
mutate the latest stored artifact in place) -/

def c5artifact : Artifact :=
  { id := "art1", project_id := "p1", type := ArtifactType.copy,
    status := ArtifactStatus.approved, version := 1,
    content := some (ArtifactContent.creativesC ["old"]), agent_name := "copywriter" }

def c5state : OrchState := { store := [c5artifact] }

def c5proj : Project :=
  { id := "p1", user_id := "user_1", name := "P", url := "http://example.com",
    status := ProjectStatus.completed }

/-- Counterexample to C5 as stated.  Concrete input: the store holds one
copy artifact (content `["old"]`, version 1) and `regenerate_creative`
succeeds with new creatives `["new"]`.  After the call, the entry
previously stored at index 0 is no longer the artifact that was written
there (its content and version were mutated through the shared reference),
and no artifact in the store retains the old content — so a previously
stored artifact's fields were mutated and the old version is replaced,
not superseded. -/
theorem c5_counterexample :
    c5state.store.get? 0 = some c5artifact
    ∧ (regenerate_creative c5proj "c1" ""
        (AgentOutcome.ok { creatives := ["new"] }) c5state).2.store.get? 0 ≠ some c5artifact
    ∧ (∀ a ∈ (regenerate_creative c5proj "c1" ""
          (AgentOutcome.ok { creatives := ["new"] }) c5state).2.store,
        a.content ≠ some (ArtifactContent.creativesC ["old"])) := by
  decide

/-- The artifact value that the refinement operations write over the
stored latest copy artifact and append again: same object with the
creatives content replaced and the version incremented. -/
def mutatedCopy (a : Artifact) (cs : List String) : Artifact :=
  { a with content := some (ArtifactContent.creativesC cs), version := a.version + 1 }

/-- C5 (amended).  `save_artifact` itself always appends, and the
user-edit route builds a fresh new `Artifact`; but the post-completion
refinement operations `regenerate_creative`, `create_variation` and
`generate_more` do not leave previously stored artifacts intact: each
mutates the latest stored copy artifact in place — replacing its content
and incrementing its version — and then appends that same mutated object
again, so the store's old entry is overwritten with the new version (the
previous content is not preserved) in addition to the append. -/
theorem c5_refinement_mutates_latest (p : Project) (cid fb vtype platform : String)
    (count : Nat) (out : CreativeSet) (s : OrchState) (i : Nat) (a : Artifact)
    (j : Nat) (sa : Artifact) (ex : List String)
    (hlatest : latestWithIdx p.id ArtifactType.copy s.store = some (i, a))
    (hstrat : latestWithIdx p.id ArtifactType.strategy s.store = some (j, sa))
    (hex : contentCreatives a.content = Except.ok ex) :
    (regenerate_creative p cid fb (AgentOutcome.ok out) s =
      (PyResult.returned out,
       { s with store :=
          (save_artifact (mutatedCopy a out.creatives) (s.store.set i (mutatedCopy a out.creatives))) }))
    ∧ (create_variation p cid vtype (AgentOutcome.ok out) s =
      (PyResult.returned out,
       { s with store :=
          (save_artifact (mutatedCopy a out.creatives) (s.store.set i (mutatedCopy a out.creatives))) }))
    ∧ (generate_more p platform count (AgentOutcome.ok out) s =
      (PyResult.returned out,
       { s with store :=
          (save_artifact (mutatedCopy a (ex ++ out.creatives))
            (s.store.set i (mutatedCopy a (ex ++ out.creatives)))) }))
    ∧ mutatedCopy a out.creatives ≠ a := by
  refine ⟨?_, ?_, ?_, ?_⟩
  · simp only [regenerate_creative, hlatest, mutatedCopy]
  · simp only [create_variation, hlatest, mutatedCopy]
  · simp only [generate_more, hstrat, hlatest, hex, mutatedCopy]
  · intro h
    have hv := congrArg Artifact.version h
    simp only [mutatedCopy] at hv
    omega

/-- Witness for the amended C5: a store holding a strategy artifact and a
copy artifact. -/
def c5strategyArtifact : Artifact :=
  { id := "art0", project_id := "p1", type := ArtifactType.strategy,
    status := ArtifactStatus.approved, version := 1,
    content := some (ArtifactContent.rawC ";"), agent_name := "strategist" }

def c5state2 : OrchState := { store := [c5strategyArtifact, c5artifact] }

theorem c5_witness :
    (regenerate_creative c5proj "c1" "fb" (AgentOutcome.ok { creatives := ["new"] }) c5state2 =
      (PyResult.returned { creatives := ["new"] },
       { c5state2 with store :=
          (save_artifact (mutatedCopy c5artifact ["new"]) (c5state2.store.set 1 (mutatedCopy c5artifact ["new"]))) }))
    ∧ (create_variation c5proj "c1" "tone" (AgentOutcome.ok { creatives := ["new"] }) c5state2 =
      (PyResult.returned { creatives := ["new"] },
       { c5state2 with store :=
          (save_artifact (mutatedCopy c5artifact ["new"]) (c5state2.store.set 1 (mutatedCopy c5artifact ["new"]))) }))
    ∧ (generate_more c5proj "vk_ads" 3 (AgentOutcome.ok { creatives := ["new"] }) c5state2 =
      (PyResult.returned { creatives := ["new"] },
       { c5state2 with store :=
          (save_artifact (mutatedCopy c5artifact (["old"] ++ ["new"]))
            (c5state2.store.set 1 (mutatedCopy c5artifact (["old"] ++ ["new"])))) }))
    ∧ mutatedCopy c5artifact ["new"] ≠ c5artifact :=
  c5_refinement_mutates_latest c5proj "c1" "fb" "tone" "vk_ads" 3 { creatives := ["new"] }
    c5state2 1 c5artifact 0 c5strategyArtifact ["old"] rfl rfl rfl

/-! ## Pipeline lemmas -/

/-- The revision loop touches only the store and the events: the status
trace and the paused-context map pass through unchanged. -/
theorem go_trace_waiting {α : Type} (dump : α → ArtifactContent) (an : String)
    (atype : ArtifactType) (pid : String) (gen : Nat → AgentOutcome α)
    (rev : Nat → ReviewOutcome) (ids : Nat → String) :
    ∀ (fuel revisions : Nat) (last : Option α) (s : OrchState) (att rc : Nat),
      (createWithReviewGo dump an atype pid gen rev ids revisions fuel last s att rc).state.trace =
        s.trace
      ∧ (createWithReviewGo dump an atype pid gen rev ids revisions fuel last s att rc).state.waiting =
        s.waiting := by
  intro fuel
  induction fuel with
  | zero => intro revisions last s att rc; exact ⟨rfl, rfl⟩
  | succ f ih =>
    intro revisions last s att rc
    simp only [createWithReviewGo]
    cases gen revisions with
    | err m => exact ⟨rfl, rfl⟩
    | ok out =>
      dsimp only
      cases rev revisions with
      | err m => exact ⟨rfl, rfl⟩
      | ok r =>
        dsimp only
        by_cases hacc : (r.approved = true ∨ 8 ≤ r.score)
        · rw [if_pos hacc]; exact ⟨rfl, rfl⟩
        · rw [if_neg hacc]; exact ih _ _ _ _ _

/-- The result of the loop depends only on the outcome scripts, not on the
incoming state or counters. -/
theorem go_result_indep {α : Type} (dump : α → ArtifactContent) (an : String)
    (atype : ArtifactType) (pid : String) (gen : Nat → AgentOutcome α)
    (rev : Nat → ReviewOutcome) (ids : Nat → String) :
    ∀ (fuel revisions : Nat) (last : Option α) (s s' : OrchState) (att rc att' rc' : Nat),
      (createWithReviewGo dump an atype pid gen rev ids revisions fuel last s att rc).result =
      (createWithReviewGo dump an atype pid gen rev ids revisions fuel last s' att' rc').result := by
  intro fuel
  induction fuel with
  | zero => intro revisions last s s' att rc att' rc'; rfl
  | succ f ih =>
    intro revisions last s s' att rc att' rc'
    simp only [createWithReviewGo]
    cases gen revisions with
    | err m => rfl
    | ok out =>
      dsimp only
      cases rev revisions with
      | err m => rfl
      | ok r =>
        dsimp only
        by_cases hacc : (r.approved = true ∨ 8 ≤ r.score)
        · rw [if_pos hacc, if_pos hacc]
        · rw [if_neg hacc, if_neg hacc]; exact ih _ _ _ _ _ _ _ _

/-- Canonical result of one stage's revision loop on a given outcome
script (state-independent by `go_result_indep`). -/
def loopResult {α : Type} (dump : α → ArtifactContent) (an : String) (atype : ArtifactType)
    (pid : String) (script : StageScript α) : PyResult α :=
  (create_with_review dump an atype pid script.gen script.rev script.ids max_revisions {}).result

theorem create_with_review_result {α : Type} (dump : α → ArtifactContent) (an : String)
    (atype : ArtifactType) (pid : String) (script : StageScript α) (s : OrchState) :
    (create_with_review dump an atype pid script.gen script.rev script.ids max_revisions s).result =
      loopResult dump an atype pid script :=
  go_result_indep dump an atype pid script.gen script.rev script.ids max_revisions 0 none s {} 0 0 0 0

theorem create_with_review_trace {α : Type} (dump : α → ArtifactContent) (an : String)
    (atype : ArtifactType) (pid : String) (gen : Nat → AgentOutcome α)
    (rev : Nat → ReviewOutcome) (ids : Nat → String) (maxRev : Nat) (s : OrchState) :
    (create_with_review dump an atype pid gen rev ids maxRev s).state.trace = s.trace :=
  (go_trace_waiting dump an atype pid gen rev ids maxRev 0 none s 0 0).1

theorem create_with_review_waiting {α : Type} (dump : α → ArtifactContent) (an : String)
    (atype : ArtifactType) (pid : String) (gen : Nat → AgentOutcome α)
    (rev : Nat → ReviewOutcome) (ids : Nat → String) (maxRev : Nat) (s : OrchState) :
    (create_with_review dump an atype pid gen rev ids maxRev s).state.waiting = s.waiting :=
  (go_trace_waiting dump an atype pid gen rev ids maxRev 0 none s 0 0).2

theorem stage_design_result (pid : String) (strat : Strategy) (script : StageScript BannerSet)
    (s : OrchState) :
    (stage_design pid strat script s).result =
      if strat.platforms.filter
          (fun pc => pc.enabled && !(pc.platform == "telegram_ads" || pc.platform == "telegram_seeding")) = []
      then PyResult.returned { banners := [], total_count := 0 }
      else loopResult dumpBanners "designer" ArtifactType.banners pid script := by
  unfold stage_design
  dsimp only
  split
  · rfl
  · exact create_with_review_result dumpBanners "designer" ArtifactType.banners pid script s

theorem stage_design_trace (pid : String) (strat : Strategy) (script : StageScript BannerSet)
    (s : OrchState) :
    (stage_design pid strat script s).state.trace = s.trace := by
  unfold stage_design
  dsimp only
  split
  · rfl
  · exact create_with_review_trace dumpBanners "designer" ArtifactType.banners pid
      script.gen script.rev script.ids max_revisions s

theorem stage_design_waiting (pid : String) (strat : Strategy) (script : StageScript BannerSet)
    (s : OrchState) :
    (stage_design pid strat script s).state.waiting = s.waiting := by
  unfold stage_design
  dsimp only
  split
  · rfl
  · exact create_with_review_waiting dumpBanners "designer" ArtifactType.banners pid
      script.gen script.rev script.ids max_revisions s

/-- A successful continuation run: all four stage loops return, so the
statuses `STRATEGY, HYPOTHESES, COPYWRITING, DESIGN, COMPLETED` are
assigned in exactly that order, the call returns normally, and the
paused-context map is untouched. -/
theorem continue_pipeline_run (p : Project) (itv : ClientInterview) (ext : PipelineExt)
    (s : OrchState) (st : Strategy) (hy : String) (cr : CreativeSet) (bn : BannerSet)
    (hS : loopResult dumpStrategy "strategist" ArtifactType.strategy p.id ext.strategyScript =
      PyResult.returned st)
    (hH : loopResult dumpHypotheses "strategist" ArtifactType.hypotheses p.id ext.hypothesesScript =
      PyResult.returned hy)
    (hC : loopResult dumpCreatives "copywriter" ArtifactType.copy p.id ext.copyScript =
      PyResult.returned cr)
    (hD : loopResult dumpBanners "designer" ArtifactType.banners p.id ext.designScript =
      PyResult.returned bn) :
    (continue_pipeline p itv ext s).1 = PyResult.returned ()
    ∧ (continue_pipeline p itv ext s).2.1.status = ProjectStatus.completed
    ∧ (continue_pipeline p itv ext s).2.2.trace =
        s.trace ++ [ProjectStatus.strategy, ProjectStatus.hypotheses, ProjectStatus.copywriting,
                    ProjectStatus.design, ProjectStatus.completed]
    ∧ (continue_pipeline p itv ext s).2.2.waiting = s.waiting := by
  unfold continue_pipeline
  simp only [setStatus, emit]
  rw [create_with_review_result dumpStrategy "strategist" ArtifactType.strategy p.id
    ext.strategyScript, hS]
  dsimp only
  rw [create_with_review_result dumpHypotheses "strategist" ArtifactType.hypotheses p.id
    ext.hypothesesScript, hH]
  dsimp only
  rw [create_with_review_result dumpCreatives "copywriter" ArtifactType.copy p.id
    ext.copyScript, hC]
  dsimp only
  rw [stage_design_result]
  by_cases hneed : st.platforms.filter
      (fun pc => pc.enabled && !(pc.platform == "telegram_ads" || pc.platform == "telegram_seeding")) = []
  · rw [if_pos hneed]
    dsimp only
    simp [stage_design_trace, stage_design_waiting, create_with_review_trace,
      create_with_review_waiting]
  · rw [if_neg hneed, hD]
    dsimp only
    simp [stage_design_trace, stage_design_waiting, create_with_review_trace,
      create_with_review_waiting]

theorem pipelineFail_waiting (p : Project) (s : OrchState) (m : String) :
    (pipelineFail p s m).2.2.waiting = s.waiting := rfl

/-- `_continue_pipeline` never touches the paused-context map, whatever
the stage outcomes. -/
theorem continue_pipeline_waiting (p : Project) (itv : ClientInterview) (ext : PipelineExt)
    (s : OrchState) :
    (continue_pipeline p itv ext s).2.2.waiting = s.waiting := by
  unfold continue_pipeline
  simp only [setStatus, emit]
  split
  · simp only [create_with_review_waiting]
  · split
    · simp only [create_with_review_waiting]
    · split
      · simp only [create_with_review_waiting]
      · split
        · simp only [stage_design_waiting, create_with_review_waiting]
        · simp only [stage_design_waiting, create_with_review_waiting]

/-! ## C7: a zero-questions run never enters QUESTIONS and walks the full
stage sequence -/

/-- C7.  For a project whose analyze stage succeeds with zero questions
(the parse and the analysis call both return `ok`), `run_pipeline` never
assigns status `QUESTIONS`: provided each stage loop returns, the statuses
assigned during the run are exactly `ANALYZING, STRATEGY, HYPOTHESES,
COPYWRITING, DESIGN, COMPLETED` in that order with no gaps or skips, the
continuation uses the default (empty) `ClientInterview` (visible in
`run_pipeline`'s no-questions branch), the run returns normally, and the
project ends in status `COMPLETED`. -/
theorem c7_no_questions_sequence (p : Project) (ext : PipelineExt) (s : OrchState)
    (pd : String) (analysis : AnalysisResult)
    (st : Strategy) (hy : String) (cr : CreativeSet) (bn : BannerSet)
    (_hcreated : p.status = ProjectStatus.created)
    (hparse : ext.parse = AgentOutcome.ok pd)
    (hanalyze : ext.analyze = AgentOutcome.ok analysis)
    (hq : analysis.questions = [])
    (hS : loopResult dumpStrategy "strategist" ArtifactType.strategy p.id ext.strategyScript =
      PyResult.returned st)
    (hH : loopResult dumpHypotheses "strategist" ArtifactType.hypotheses p.id ext.hypothesesScript =
      PyResult.returned hy)
    (hC : loopResult dumpCreatives "copywriter" ArtifactType.copy p.id ext.copyScript =
      PyResult.returned cr)
    (hD : loopResult dumpBanners "designer" ArtifactType.banners p.id ext.designScript =
      PyResult.returned bn) :
    (run_pipeline p ext s).1 = PyResult.returned ()
    ∧ (run_pipeline p ext s).2.1.status = ProjectStatus.completed
    ∧ (run_pipeline p ext s).2.2.trace =
        s.trace ++ [ProjectStatus.analyzing, ProjectStatus.strategy, ProjectStatus.hypotheses,
                    ProjectStatus.copywriting, ProjectStatus.design, ProjectStatus.completed]
    ∧ ProjectStatus.questions ∉ (run_pipeline p ext s).2.2.trace.drop s.trace.length := by
  unfold run_pipeline stage_analyze
  simp only [setStatus, emit, hparse, hanalyze, hq, eq_self_iff_true, if_true]
  split
  · rename_i m p2 s2 heq
    have hrun := continue_pipeline_run
      { p with status := ProjectStatus.analyzing, current_stage := 1,
               brief := some analysis.brief }
      {} ext
      { s with
          store := save_artifact
            { id := ext.briefId, project_id := p.id, type := ArtifactType.brief,
              status := ArtifactStatus.approved, version := 1,
              content := some (ArtifactContent.briefC analysis.brief),
              agent_name := "project_manager" } s.store,
          events := s.events ++ [Event.stage_start 1 "analyzing"],
          trace := s.trace ++ [ProjectStatus.analyzing] }
      st hy cr bn hS hH hC hD
    rw [heq] at hrun
    exact absurd hrun.1 (by simp)
  · rename_i u p2 s2 heq
    have hrun := continue_pipeline_run
      { p with status := ProjectStatus.analyzing, current_stage := 1,
               brief := some analysis.brief }
      {} ext
      { s with
          store := save_artifact
            { id := ext.briefId, project_id := p.id, type := ArtifactType.brief,
              status := ArtifactStatus.approved, version := 1,
              content := some (ArtifactContent.briefC analysis.brief),
              agent_name := "project_manager" } s.store,
          events := s.events ++ [Event.stage_start 1 "analyzing"],
          trace := s.trace ++ [ProjectStatus.analyzing] }
      st hy cr bn hS hH hC hD
    rw [heq] at hrun
    refine ⟨rfl, hrun.2.1, ?_, ?_⟩
    · dsimp only
      rw [hrun.2.2.1]
      simp
    · dsimp only
      rw [hrun.2.2.1]
      simp only [List.append_assoc, List.cons_append, List.nil_append,
        List.singleton_append]
      rw [List.drop_left]
      decide

/-- Concrete success scripts for the pipeline witnesses: every stage's
first attempt is created successfully and approved by its review. -/
def approveAll : Nat → ReviewOutcome :=
  fun _ => ReviewOutcome.ok { approved := true, score := 9, feedback := "ok" }

def stratOk : StageScript Strategy :=
  { gen := fun _ => AgentOutcome.ok { platforms := [] }, rev := approveAll,
    ids := fun k => "s-" ++ toString k }

def hypOk : StageScript String :=
  { gen := fun _ => AgentOutcome.ok "hyp", rev := approveAll,
    ids := fun k => "h-" ++ toString k }

def copyOk : StageScript CreativeSet :=
  { gen := fun _ => AgentOutcome.ok { creatives := ["c"] }, rev := approveAll,
    ids := fun k => "c-" ++ toString k }

def bannersOk : StageScript BannerSet :=
  { gen := fun _ => AgentOutcome.ok {}, rev := approveAll,
    ids := fun k => "d-" ++ toString k }

/-- Concrete pipeline externals: the parse and the analysis succeed and
the analysis yields zero questions. -/
def extOk : PipelineExt :=
  { parse := AgentOutcome.ok "parsed", analyze := AgentOutcome.ok { brief := {}, questions := [] },
    briefId := "b-1", questionsId := "q-1",
    strategyScript := stratOk, hypothesesScript := hypOk,
    copyScript := copyOk, designScript := bannersOk }

def p7 : Project :=
  { id := "p7", user_id := "user_1", name := "P7", url := "http://example.com" }

/-- Witness for C7 at the concrete all-approving scripts. -/
theorem c7_witness :
    (run_pipeline p7 extOk {}).1 = PyResult.returned ()
    ∧ (run_pipeline p7 extOk {}).2.1.status = ProjectStatus.completed
    ∧ (run_pipeline p7 extOk {}).2.2.trace =
        OrchState.trace {} ++
          [ProjectStatus.analyzing, ProjectStatus.strategy, ProjectStatus.hypotheses,
           ProjectStatus.copywriting, ProjectStatus.design, ProjectStatus.completed]
    ∧ ProjectStatus.questions ∉
        (run_pipeline p7 extOk {}).2.2.trace.drop (OrchState.trace {}).length :=
  c7_no_questions_sequence p7 extOk {} "parsed" { brief := {}, questions := [] }
    { platforms := [] } "hyp" { creatives := ["c"] } {}
    rfl rfl rfl rfl (by decide) (by decide) (by decide) (by decide)

/-! ## C8: the paused context is never removed (corrected) -/

/-- C8 (amended).  The paused context stored under the project's id in
`waiting_projects` is never removed: `continue_after_answers` (for every
answers payload, every set of stage outcomes, and every starting state,
whether resumption succeeds or fails) leaves the paused-context map
exactly as it was. -/
theorem c8_waiting_unchanged (p : Project) (answers : Answers) (ext : PipelineExt)
    (s : OrchState) :
    (continue_after_answers p answers ext s).2.2.waiting = s.waiting := by
  unfold continue_after_answers
  split
  · rfl
  · dsimp only
    split
    · rename_i m p2 s2 heq
      have h2 := congrArg (fun t => t.2.2.waiting) heq
      dsimp only at h2
      rw [continue_pipeline_waiting] at h2
      rw [pipelineFail_waiting, ← h2]
      split <;> rfl
    · rename_i u p2 s2 heq
      have h2 := congrArg (fun t => t.2.2.waiting) heq
      dsimp only at h2
      rw [continue_pipeline_waiting] at h2
      dsimp only
      rw [← h2]
      split <;> rfl


/-- Counterexample to C8 as stated.  Concrete input: the paused-context
map holds the entry for project `p8`; `continue_after_answers` is run to
completion (resumption started and even finished), yet the entry is still
in the map — it is never removed. -/
def c8entry : WaitingEntry :=
  { analysis := { brief := {}, questions := [{ id := "q1", question := "Budget?" }] },
    stage := "questions" }

def c8state : OrchState := { waiting := [("p8", c8entry)] }

def p8 : Project :=
  { id := "p8", user_id := "user_1", name := "P8", url := "http://example.com",
    status := ProjectStatus.questions }

theorem c8_counterexample :
    (continue_after_answers p8 [] extOk c8state).2.2.waiting = [("p8", c8entry)]
    ∧ ([("p8", c8entry)] : List (String × WaitingEntry)) ≠ [] := by
  decide

end AdFlow
